import Mathlib

/-!
Verification of the ForecastMP-v2 forecasting + procurement core.

Shallow embedding of:
  * `src/procurement/analyzer.py`  (ProcurementAnalyzer)
  * `src/forecasting/simple_forecast.py`  (SimpleForecaster)
  * `src/forecasting/ml_engine.py`  (FeatureEngineer, DemandForecaster.train)

Conventions:
  * calendar dates are day numbers (`ℤ`);
  * Python `Decimal` / exact numeric values are `ℚ` (Decimal arithmetic in
    the analyzer stays exact at the precision used: operands are small
    integers and short decimal strings);
  * Python `int(x)` is truncation toward zero (`pyInt`), Python `round`
    is round-half-to-even (`pyRound`);
  * database rows become explicit lists passed as arguments, so every
    upstream read of the analyzer is an explicit input.
-/

namespace ForecastMP

/-- Python `int(q)`: truncation toward zero. -/
def pyInt (q : ℚ) : ℤ :=
  if q < 0 then ⌈q⌉ else ⌊q⌋

/-- Python 3 `round(q)`: round half to even (banker rounding). -/
def pyRound (q : ℚ) : ℤ :=
  let f : ℤ := ⌊q⌋
  let r : ℚ := q - f
  if r < 1/2 then f
  else if 1/2 < r then f + 1
  else if Even f then f else f + 1

/-! ## Data model (src/sales/models.py, src/procurement/models.py,
    src/products/models.py) -/

/-- `InventorySnapshot` row: `(snapshot_date, quantity_available)`. -/
structure InventorySnapshot where
  snapshot_date : ℤ
  quantity_available : ℤ
deriving DecidableEq, Repr

/-- `DailySalesAggregate` row: `(date, total_quantity)`. -/
structure DailySalesAggregate where
  date : ℤ
  total_quantity : ℤ
deriving DecidableEq, Repr

/-- `PurchaseOrderItem` joined with its parent order status:
`(purchase_order.status, quantity_ordered, quantity_received)`. -/
structure PurchaseOrderItem where
  status : String
  quantity_ordered : ℤ
  quantity_received : ℤ
deriving DecidableEq, Repr

/-- `PurchaseOrderItem.quantity_in_transit` property:
`max(0, quantity_ordered - quantity_received)`. -/
def PurchaseOrderItem.quantity_in_transit (item : PurchaseOrderItem) : ℤ :=
  max 0 (item.quantity_ordered - item.quantity_received)

/-- Product procurement configuration (`ProductExtendedAttributes`
integer fields read in `ProcurementAnalyzer.__init__`). -/
structure ProductAttributes where
  reorder_threshold_days : ℤ
  lead_time_days : ℤ
  safety_stock_days : ℤ
  minimum_order_quantity : ℤ
deriving DecidableEq, Repr

/-- Defaults applied by `ProcurementAnalyzer.__init__` when the product has
no `extended_attributes`: 7 / 14 / 3 / 1. -/
def defaultAttributes : ProductAttributes :=
  { reorder_threshold_days := 7
    lead_time_days := 14
    safety_stock_days := 3
    minimum_order_quantity := 1 }

/-- The `getattr` of `extended_attributes` with fallback `None` resolved: either the
configured attributes or the documented defaults. -/
def resolveAttributes : Option ProductAttributes → ProductAttributes
  | some a => a
  | none => defaultAttributes

/-! ## ProcurementAnalyzer (src/procurement/analyzer.py) -/

/-- `ProcurementAnalyzer.get_current_inventory`: the query filters
`snapshot_date = current_date` (exact equality), orders by
`-snapshot_date` (constant on the filtered set) and takes `.first()`;
returns `quantity_available`, or 0 when no row matches. -/
def get_current_inventory (snapshots : List InventorySnapshot)
    (current_date : ℤ) : ℤ :=
  match (snapshots.filter (fun s => s.snapshot_date = current_date)).head? with
  | some s => s.quantity_available
  | none => 0

/-- Modelled from the spec: "Current inventory = latest inventory snapshot
at or before the analysis date (0 if none exists)".  This operation is
absent from `get_current_inventory`, whose filter keeps only snapshots
dated exactly on the analysis date; kept here for comparison. -/
def spec_current_inventory (snapshots : List InventorySnapshot)
    (current_date : ℤ) : ℤ :=
  let eligible := snapshots.filter (fun s => s.snapshot_date ≤ current_date)
  match eligible.argmax (fun s => s.snapshot_date) with
  | some s => s.quantity_available
  | none => 0

/-- `ProcurementAnalyzer.calculate_daily_burn_rate`: sum of
`total_quantity` over aggregates with `start_date ≤ date ≤ current_date`
(`start_date = current_date - lookback_days`), divided by the number of
such aggregate rows; a zero Decimal when there are none.  Decimal division
rounds to 28 significant digits; it is modelled as exact rational division
(no verified claim depends on digits beyond that precision). -/
def calculate_daily_burn_rate (aggregates : List DailySalesAggregate)
    (current_date lookback_days : ℤ) : ℚ :=
  let start_date := current_date - lookback_days
  let selected := aggregates.filter
    (fun a => start_date ≤ a.date ∧ a.date ≤ current_date)
  let total : ℤ := (selected.map (fun a => a.total_quantity)).sum
  if selected.length = 0 then 0
  else (total : ℚ) / (selected.length : ℚ)

/-- `ProcurementAnalyzer.calculate_runway_days`:
999 when the burn rate is ≤ 0, else `max(0, int(stock / burn_rate))`. -/
def calculate_runway_days (current_stock : ℤ) (daily_burn_rate : ℚ) : ℤ :=
  if daily_burn_rate ≤ 0 then 999
  else max 0 (pyInt ((current_stock : ℚ) / daily_burn_rate))

/-- `ProcurementAnalyzer.calculate_stockout_date`:
`current_date + timedelta(days=runway_days)`. -/
def calculate_stockout_date (current_date runway_days : ℤ) : ℤ :=
  current_date + runway_days

/-- `ProcurementAnalyzer.get_in_transit_quantity`: sum of
`quantity_in_transit` over items whose order status is SUBMITTED,
CONFIRMED or IN_TRANSIT. -/
def get_in_transit_quantity (po_items : List PurchaseOrderItem) : ℤ :=
  let in_transit := po_items.filter (fun item =>
    item.status = "SUBMITTED" ∨ item.status = "CONFIRMED" ∨
      item.status = "IN_TRANSIT")
  (in_transit.map (fun item => item.quantity_in_transit)).sum

/-- `ProcurementAnalyzer.calculate_recommended_quantity`:
0 when burn rate ≤ 0; else `required = int(burn * (lead + safety))`,
`recommended = required - (stock + in_transit)`, raised to
`minimum_order_quantity` when strictly between 0 and it, then
`max(0, ...)`. -/
def calculate_recommended_quantity (attrs : ProductAttributes)
    (daily_burn_rate : ℚ) (current_stock in_transit_qty : ℤ) : ℤ :=
  if daily_burn_rate ≤ 0 then 0
  else
    let total_coverage_days : ℤ := attrs.lead_time_days + attrs.safety_stock_days
    let required_inventory : ℤ := pyInt (daily_burn_rate * (total_coverage_days : ℚ))
    let available_inventory : ℤ := current_stock + in_transit_qty
    let recommended : ℤ := required_inventory - available_inventory
    let recommended : ℤ :=
      if 0 < recommended ∧ recommended < attrs.minimum_order_quantity
      then attrs.minimum_order_quantity else recommended
    max 0 recommended

/-- Base score of `ProcurementAnalyzer.calculate_priority_score`:
100 when runway ≤ 0; a linear 70→100 ramp when runway ≤ threshold;
else `max(0, 70 - (runway - threshold) * 2)`. -/
def priority_base_score (reorder_threshold runway_days : ℤ) : ℚ :=
  if runway_days ≤ 0 then 100
  else if runway_days ≤ reorder_threshold then
    70 + 30 * ((reorder_threshold : ℚ) - (runway_days : ℚ)) / (reorder_threshold : ℚ)
  else max 0 (70 - ((runway_days : ℚ) - (reorder_threshold : ℚ)) * 2)

/-- `ProcurementAnalyzer.calculate_priority_score`: base score times
`min(1.2, 1 + burn_rate / 100)` times `confidence / 100` (1 when no
forecast confidence is supplied), clamped to `[0, 100]`.  The float
round trip `Decimal(str(float(...)))` is modelled as exact rational
arithmetic. -/
def calculate_priority_score (attrs : ProductAttributes) (runway_days : ℤ)
    (daily_burn_rate : ℚ) (forecast_confidence : Option ℚ) : ℚ :=
  let base_score := priority_base_score attrs.reorder_threshold_days runway_days
  let velocity_multiplier : ℚ := min (6/5) (1 + daily_burn_rate / 100)
  let confidence_multiplier : ℚ :=
    match forecast_confidence with
    | some c => c / 100
    | none => 1
  let priority := base_score * velocity_multiplier * confidence_multiplier
  min 100 (max 0 priority)

/-- `ProcurementAnalyzer.determine_action_category`: for positive
in-transit quantity, ALREADY_ORDERED iff it covers
`int(burn_rate * lead_time)`, else ATTENTION_REQUIRED; otherwise
ORDER_TODAY when runway ≤ threshold and a positive quantity is
recommended; ATTENTION_REQUIRED when a positive quantity is recommended
and runway ≤ 1.5 × threshold; else NORMAL. -/
def determine_action_category (attrs : ProductAttributes)
    (runway_days in_transit_qty recommended_qty : ℤ)
    (daily_burn_rate : ℚ) : String :=
  if 0 < in_transit_qty then
    let lead_time_demand : ℤ := pyInt (daily_burn_rate * (attrs.lead_time_days : ℚ))
    if lead_time_demand ≤ in_transit_qty then "ALREADY_ORDERED"
    else "ATTENTION_REQUIRED"
  else if runway_days ≤ attrs.reorder_threshold_days ∧ 0 < recommended_qty then
    "ORDER_TODAY"
  else if 0 < recommended_qty ∧
      (runway_days : ℚ) ≤ (attrs.reorder_threshold_days : ℚ) * (3/2) then
    "ATTENTION_REQUIRED"
  else "NORMAL"

/-- `ProcurementAnalyzer._generate_notes`: deterministic human-readable
notes from the category and metrics, joined with single spaces; an
out-of-stock flag is appended whenever current stock is 0. -/
def generate_notes (runway_days current_stock in_transit_qty
    recommended_qty : ℤ) (action_category : String) : String :=
  let category_notes : List String :=
    if action_category = "ORDER_TODAY" then
      ["Critical: Only " ++ toString runway_days ++ " days of inventory remaining.",
       "Recommended order: " ++ toString recommended_qty ++ " units."]
    else if action_category = "ALREADY_ORDERED" then
      ["Purchase order in transit: " ++ toString in_transit_qty ++ " units.",
       "Current runway: " ++ toString runway_days ++ " days."]
    else if action_category = "ATTENTION_REQUIRED" then
      ["Attention needed: " ++ toString runway_days ++ " days runway."] ++
        (if 0 < in_transit_qty then
          ["Partial coverage from PO: " ++ toString in_transit_qty ++ " units.",
           "Additional " ++ toString recommended_qty ++ " units may be needed."]
         else [])
    else
      ["Inventory healthy: " ++ toString runway_days ++ " days runway."]
  let all_notes := category_notes ++
    (if current_stock = 0 then ["Currently out of stock!"] else [])
  String.intercalate " " all_notes

/-- All upstream reads of one `ProcurementAnalyzer` run, made explicit:
the snapshot / aggregate / purchase-order rows the queries would see, the
optional extended attributes of the product, and the analysis date. -/
structure AnalyzerInput where
  snapshots : List InventorySnapshot
  aggregates : List DailySalesAggregate
  po_items : List PurchaseOrderItem
  extended_attributes : Option ProductAttributes
  current_date : ℤ
deriving DecidableEq, Repr

/-- The dict returned by `ProcurementAnalyzer.analyze` (§6 admits
`stockout_date : date | null`, hence the `Option`). -/
structure Recommendation where
  analysis_date : ℤ
  current_stock : ℤ
  daily_burn_rate : ℚ
  runway_days : ℤ
  stockout_date : Option ℤ
  recommended_quantity : ℤ
  action_category : String
  priority_score : ℚ
  notes : String
  meta_in_transit_quantity : ℤ
  meta_reorder_threshold : ℤ
  meta_lead_time : ℤ
  meta_safety_stock_days : ℤ
deriving DecidableEq, Repr

/-- `ProcurementAnalyzer.analyze`: the complete pipeline — current stock,
burn rate, in-transit quantity, runway, stockout date, recommended
quantity, priority score, action category, notes and metadata. -/
def analyze (inp : AnalyzerInput) (forecast_confidence : Option ℚ) :
    Recommendation :=
  let attrs := resolveAttributes inp.extended_attributes
  let current_stock := get_current_inventory inp.snapshots inp.current_date
  let daily_burn_rate := calculate_daily_burn_rate inp.aggregates inp.current_date 30
  let in_transit_qty := get_in_transit_quantity inp.po_items
  let runway_days := calculate_runway_days current_stock daily_burn_rate
  let stockout_date := calculate_stockout_date inp.current_date runway_days
  let recommended_qty :=
    calculate_recommended_quantity attrs daily_burn_rate current_stock in_transit_qty
  let priority_score :=
    calculate_priority_score attrs runway_days daily_burn_rate forecast_confidence
  let action_category :=
    determine_action_category attrs runway_days in_transit_qty recommended_qty
      daily_burn_rate
  { analysis_date := inp.current_date
    current_stock := current_stock
    daily_burn_rate := daily_burn_rate
    runway_days := runway_days
    stockout_date := some stockout_date
    recommended_quantity := recommended_qty
    action_category := action_category
    priority_score := priority_score
    notes := generate_notes runway_days current_stock in_transit_qty
      recommended_qty action_category
    meta_in_transit_quantity := in_transit_qty
    meta_reorder_threshold := attrs.reorder_threshold_days
    meta_lead_time := attrs.lead_time_days
    meta_safety_stock_days := attrs.safety_stock_days }

/-! ## SimpleForecaster (src/forecasting/simple_forecast.py) -/

/-- Arithmetic mean as an exact rational (`np.mean`); only ever used on
nonempty lists by the guards of the forecaster. -/
def listMean (sales : List ℤ) : ℚ :=
  ((sales.map (fun x => (x : ℚ))).sum) / (sales.length : ℚ)

/-- Population variance (`np.std` squared): mean of squared deviations. -/
def listVariance (sales : List ℤ) : ℚ :=
  ((sales.map (fun x => ((x : ℚ) - listMean sales) ^ 2)).sum) / (sales.length : ℚ)

/-- `SimpleForecaster.calculate_moving_averages`: mean over the last 7 /
last 14 observations, or over all available data when fewer exist;
`(0.0, 0.0)` on empty history. -/
def calculate_moving_averages (sales_data : List ℤ) : ℚ × ℚ :=
  if sales_data.length = 0 then (0, 0)
  else
    let avg_7 :=
      if 7 ≤ sales_data.length
      then listMean (sales_data.drop (sales_data.length - 7))
      else listMean sales_data
    let avg_14 :=
      if 14 ≤ sales_data.length
      then listMean (sales_data.drop (sales_data.length - 14))
      else listMean sales_data
    (avg_7, avg_14)

/-- Volatility tercile used by `calculate_weighted_forecast`
(0 = low, 1 = medium, 2 = high).  The source computes
`volatility = min(1.0, (std/mean)/2)` in `calculate_volatility` (0 when
fewer than 2 points or mean 0) and compares it against 0.3 and 0.7.
Since both thresholds are < 1 the `min` never changes the comparison,
and for mean > 0 the exact-real equivalences
`(σ/μ)/2 < 3/10 ↔ 25·σ² < 9·μ²` and `(σ/μ)/2 < 7/10 ↔ 25·σ² < 49·μ²`
(σ, μ ≥ 0) let the classification be decided on the variance without a
square root; for mean < 0 the coefficient of variation is ≤ 0, hence
below 0.3. -/
def volatility_class (sales_data : List ℤ) : ℕ :=
  if sales_data.length < 2 then 0
  else
    let μ := listMean sales_data
    if μ ≤ 0 then 0
    else if 25 * listVariance sales_data < 9 * μ ^ 2 then 0
    else if 25 * listVariance sales_data < 49 * μ ^ 2 then 1
    else 2

/-- `SimpleForecaster.calculate_weighted_forecast`: volatility-tercile
weighted blend of the 7- and 14-day averages (0.6/0.4, 0.5/0.5, 0.4/0.6). -/
def calculate_weighted_forecast (avg_7 avg_14 : ℚ) (vol_class : ℕ) : ℚ :=
  if vol_class = 0 then (3/5) * avg_7 + (2/5) * avg_14
  else if vol_class = 1 then (1/2) * avg_7 + (1/2) * avg_14
  else (2/5) * avg_7 + (3/5) * avg_14

/-- `SimpleForecaster.calculate_confidence_level`: HIGH for ≥ 30 data
points, MEDIUM for ≥ 14, else LOW. -/
def calculate_confidence_level (sales_data : List ℤ) : String :=
  if 30 ≤ sales_data.length then "HIGH"
  else if 14 ≤ sales_data.length then "MEDIUM"
  else "LOW"

/-- One forecast dict of `generate_forecast_for_product`.  The float
fields `confidence_lower`/`confidence_upper` (forecast ∓ 1.96·√variance,
irrational in general) are outside every verified claim and are not
carried. -/
structure ForecastRow where
  forecast_date : ℤ
  predicted_quantity : ℤ
  confidence_level : String
  calculation_method : String
deriving DecidableEq, Repr

/-- `SimpleForecaster.generate_forecast_for_product`: on empty history
the weighted average is 0, otherwise it is the volatility-weighted blend;
one row per day `i = 1 .. forecast_days`, each with
`predicted_quantity = max(0, round(weighted_avg))`. -/
def generate_forecast_for_product (sales_data : List ℤ) (today : ℤ)
    (forecast_days : ℕ) : List ForecastRow :=
  let weighted_avg : ℚ :=
    if sales_data.length = 0 then 0
    else
      let averages := calculate_moving_averages sales_data
      calculate_weighted_forecast averages.1 averages.2 (volatility_class sales_data)
  (List.range forecast_days).map (fun (i : ℕ) =>
    { forecast_date := today + (i : ℤ) + 1
      predicted_quantity := max 0 (pyRound weighted_avg)
      confidence_level := calculate_confidence_level sales_data
      calculation_method := "MOVING_AVERAGE" })

/-! ## FeatureEngineer and DemandForecaster.train
    (src/forecasting/ml_engine.py)

The input is the date-sorted daily quantity series (sorting by date
is the first step of the pipeline; §4.1 forbids duplicate dates).  With
`lag_days = [1, 7]` and `rolling_windows = [7]` the engineered feature
columns — every column except `quantity`, `date` and the id columns — are
exactly: `quantity_lag_1`, `quantity_lag_7`, `quantity_rolling_mean_7`,
`quantity_rolling_std_7`, `day_of_week`, `is_weekend`,
`days_since_start`, `growth_rate_3d`; eight in total. -/

/-- Number of engineered feature columns. -/
def num_feature_columns : ℕ := 8

/-- Nulls among the eight feature columns of row `i` (0-based, date
order) at the moment of the retention filter: `quantity_lag_1` is null
iff `i < 1`; `quantity_lag_7` iff `i < 7`; the rolling mean and std over
window 7 are null iff `i < 6` (pandas default `min_periods = window`);
the three calendar/trend columns are never null; `growth_rate_3d`
(`pct_change(3)`) is null iff `i < 3`, or 0/0 occurred
(both `q[i-3]` and `q[i]` zero) — a nonzero value over a zero prior
gives ±inf, which `isnull` does not count and which is replaced by NaN
only after the filter. -/
def feature_null_count (qs : List ℤ) (i : ℕ) : ℕ :=
  (if i < 1 then 1 else 0) + (if i < 7 then 1 else 0) +
  (if i < 6 then 1 else 0) + (if i < 6 then 1 else 0) +
  (if i < 3 ∨ (qs.getD (i - 3) 0 = 0 ∧ qs.getD i 0 = 0) then 1 else 0)

/-- Retention filter of `FeatureEngineer.engineer_features`:
keep a row iff its feature null count is at most the threshold, with
`threshold = len(feature_cols) // 2`. -/
def row_retained (qs : List ℤ) (i : ℕ) : Bool :=
  feature_null_count qs i ≤ num_feature_columns / 2

/-- Indices (into the date-sorted series) of the rows the feature matrix
keeps.  The subsequent `fillna` steps only rewrite values inside
retained rows, never row membership. -/
def engineer_features_retained_rows (qs : List ℤ) : List ℕ :=
  (List.range qs.length).filter (fun i => row_retained qs i)

/-- `len(X)`: number of rows of the engineered feature matrix. -/
def retained_row_count (qs : List ℤ) : ℕ :=
  (engineer_features_retained_rows qs).length

/-- The three `ValueError`s of `DemandForecaster.train`. -/
inductive TrainError where
  | insufficient_data
  | no_features
  | dataset_too_small
deriving DecidableEq, Repr

/-- Data-validation and fallback logic of `DemandForecaster.train`: fail
with "Insufficient training data" below 10 engineered rows; fail with
"No features available" when the matrix is empty or has no feature
columns; fall back to a single 80/20 split when fewer than 2 time-series
folds fit, failing when even that split is empty.  On success the fitted
model exists; `samples_used` (= `len(X)`) is returned. -/
def train (qs : List ℤ) : Except TrainError ℕ :=
  let n := retained_row_count qs
  if n < 10 then .error .insufficient_data
  else if n = 0 ∨ num_feature_columns = 0 then .error .no_features
  else
    let n_splits := min 3 (n / 5)
    if n_splits < 2 then
      let split_idx := n * 4 / 5
      if split_idx < 1 then .error .dataset_too_small
      else .ok n
    else .ok n

/-- The "insufficient data" condition of §7: fewer than 10 usable rows or
an empty feature set (the first two `ValueError`s of `train`). -/
def is_insufficient_data_error : Except TrainError ℕ → Bool
  | .error .insufficient_data => true
  | .error .no_features => true
  | _ => false

/-! ## Helper lemmas -/

/-- Truncation toward zero of a rational bounded by an integer stays
bounded by that integer. -/
theorem pyInt_le_of_le {q : ℚ} {n : ℤ} (h : q ≤ (n : ℚ)) : pyInt q ≤ n := by
  unfold pyInt
  split_ifs with hq
  · exact Int.ceil_le.mpr h
  · have h1 : (⌊q⌋ : ℚ) ≤ (n : ℚ) := le_trans (Int.floor_le q) h
    exact_mod_cast h1

/-- The base priority score is never negative. -/
theorem priority_base_nonneg (t r : ℤ) : 0 ≤ priority_base_score t r := by
  unfold priority_base_score
  split_ifs with h1 h2
  · norm_num
  · have hr : (0 : ℤ) < r := not_le.mp h1
    have ht : (0 : ℤ) < t := lt_of_lt_of_le hr h2
    have ht' : (0 : ℚ) < (t : ℚ) := by exact_mod_cast ht
    have hrt : (r : ℚ) ≤ (t : ℚ) := by exact_mod_cast h2
    have hdiv : (0 : ℚ) ≤ 30 * ((t : ℚ) - (r : ℚ)) / (t : ℚ) :=
      div_nonneg (by linarith) ht'.le
    linarith
  · exact le_max_left 0 _

/-- Decreasing the runway from strictly above the threshold to any
smaller non-negative value never decreases the base priority score. -/
theorem priority_base_antitone {t r1 r2 : ℤ} (h0 : 0 ≤ r1) (h12 : r1 < r2)
    (ht : t < r2) : priority_base_score t r2 ≤ priority_base_score t r1 := by
  unfold priority_base_score
  have hr2 : ¬ (r2 ≤ 0) := by omega
  have hr2t : ¬ (r2 ≤ t) := by omega
  rw [if_neg hr2, if_neg hr2t]
  have hgap : (1 : ℚ) ≤ (r2 : ℚ) - (t : ℚ) := by
    exact_mod_cast (by omega : (1 : ℤ) ≤ r2 - t)
  split_ifs with h1 h2
  · exact max_le (by norm_num) (by linarith)
  · have hr1 : (0 : ℤ) < r1 := not_le.mp h1
    have htpos : (0 : ℤ) < t := lt_of_lt_of_le hr1 h2
    have ht' : (0 : ℚ) < (t : ℚ) := by exact_mod_cast htpos
    have hrt : (r1 : ℚ) ≤ (t : ℚ) := by exact_mod_cast h2
    have hdiv : (0 : ℚ) ≤ 30 * ((t : ℚ) - (r1 : ℚ)) / (t : ℚ) :=
      div_nonneg (by linarith) ht'.le
    exact max_le (by linarith) (by linarith)
  · refine max_le_max le_rfl ?_
    have : (r1 : ℚ) ≤ (r2 : ℚ) := by exact_mod_cast h12.le
    linarith

/-! ## Claims -/

/-- C1: the spec reads "current inventory = latest inventory snapshot at
or before the analysis date (0 if none exists)", but the query of
`get_current_inventory` filters `snapshot_date = current_date` exactly
(its descending order-by is vacuous on that filtered set), so a snapshot
taken the day before the analysis date is invisible: with a single
snapshot of 5 units dated day 0 and analysis date day 1 the code returns
0 while the specified latest-at-or-before lookup returns 5. -/
theorem current_inventory_ignores_earlier_snapshots :
    get_current_inventory [⟨0, 5⟩] 1 = 0 ∧
      spec_current_inventory [⟨0, 5⟩] 1 = 5 := by
  constructor <;> rfl

/-- C2 counterexample: the claim asserts in-transit coverage forces
ALREADY_ORDERED "including the case in_transit_quantity = 0".  In the
product state with zero burn rate and nothing in transit (runway 999,
recommended 0, both as the analyzer computes them for that state) the
coverage inequality 0 ≥ 0 × lead_time holds, yet
`determine_action_category` answers NORMAL, because its in-transit branch
is guarded by `in_transit_qty > 0`. -/
theorem action_category_zero_in_transit_not_already_ordered :
    (0 : ℚ) * ((defaultAttributes.lead_time_days : ℤ) : ℚ) ≤ ((0 : ℤ) : ℚ) ∧
      determine_action_category defaultAttributes 999 0 0 0 = "NORMAL" := by
  constructor
  · norm_num
  · rfl

/-- C2 (amended): for every product state with a strictly positive
in-transit quantity, if the in-transit quantity is at least
burn_rate × lead_time_days then `determine_action_category` returns
ALREADY_ORDERED — also for non-integer burn_rate × lead_time_days, since
the code truncates the demand with `int(...)` before comparing. -/
theorem in_transit_coverage_already_ordered (attrs : ProductAttributes)
    (runway_days in_transit_qty recommended_qty : ℤ) (daily_burn_rate : ℚ)
    (hpos : 0 < in_transit_qty)
    (hcov : daily_burn_rate * ((attrs.lead_time_days : ℤ) : ℚ) ≤
      ((in_transit_qty : ℤ) : ℚ)) :
    determine_action_category attrs runway_days in_transit_qty
      recommended_qty daily_burn_rate = "ALREADY_ORDERED" := by
  unfold determine_action_category
  rw [if_pos hpos, if_pos (pyInt_le_of_le hcov)]

/-- C2 witness: an order of 5 units in transit against a zero burn rate
is classified ALREADY_ORDERED. -/
theorem in_transit_coverage_already_ordered_witness :
    determine_action_category defaultAttributes 0 5 0 0 = "ALREADY_ORDERED" :=
  in_transit_coverage_already_ordered defaultAttributes 0 5 0 0
    (by norm_num) (by norm_num)

/-- C3 counterexample: the claim retains a row iff strictly fewer than
half of its feature columns are null, but on the two-row series
[1, 1] the second row has exactly half of the eight feature columns null
(lag 1 present; lag 7, both rolling-7 statistics and the 3-day growth
rate null) and `engineer_features` keeps it: the filter is
`feature_null_count ≤ len(feature_cols) // 2`, not `<  half`. -/
theorem feature_row_retained_at_exactly_half_nulls :
    1 ∈ engineer_features_retained_rows [1, 1] ∧
      ¬ (2 * feature_null_count [1, 1] 1 < num_feature_columns) := by
  constructor
  · decide
  · decide

/-- C3 (amended): a row of the input series is retained in the output
matrix iff at most half of its feature columns are null, i.e. iff its
null count is ≤ ⌊(number of feature columns) / 2⌋ = 4. -/
theorem feature_row_retention_rule (qs : List ℤ) (i : ℕ)
    (h : i < qs.length) :
    i ∈ engineer_features_retained_rows qs ↔
      feature_null_count qs i ≤ num_feature_columns / 2 := by
  unfold engineer_features_retained_rows row_retained
  simp [List.mem_filter, List.mem_range, h]

/-- C3 witness: on the series [1, 1], membership of row 1 in the
retained set is equivalent to its null count being at most 4. -/
theorem feature_row_retention_rule_witness :
    1 ∈ engineer_features_retained_rows [1, 1] ↔
      feature_null_count [1, 1] 1 ≤ num_feature_columns / 2 :=
  feature_row_retention_rule [1, 1] 1 (by norm_num)

/-- C4: for every analyzer input whose 30-day burn rate is 0, `analyze`
yields runway_days = 999, and its action category is never ORDER_TODAY —
whatever the snapshots, purchase orders and configuration. -/
theorem zero_burn_rate_runway_999_never_order_today (inp : AnalyzerInput)
    (conf : Option ℚ)
    (h : calculate_daily_burn_rate inp.aggregates inp.current_date 30 = 0) :
    (analyze inp conf).runway_days = 999 ∧
      (analyze inp conf).action_category ≠ "ORDER_TODAY" := by
  have hrunway : calculate_runway_days
      (get_current_inventory inp.snapshots inp.current_date) 0 = 999 := by
    unfold calculate_runway_days
    rw [if_pos le_rfl]
  have hrec : ∀ attrs stock it,
      calculate_recommended_quantity attrs 0 stock it = 0 := by
    intro attrs stock it
    unfold calculate_recommended_quantity
    rw [if_pos le_rfl]
  constructor
  · simp only [analyze, h, hrunway]
  · simp only [analyze, h, hrunway, hrec]
    unfold determine_action_category
    split_ifs <;> simp_all
    all_goals split_ifs <;> simp_all

/-- C4 witness: with no sales aggregates (burn rate 0) the runway is 999
and the category is not ORDER_TODAY. -/
theorem zero_burn_rate_runway_999_never_order_today_witness :
    (analyze ⟨[], [], [], none, 0⟩ none).runway_days = 999 ∧
      (analyze ⟨[], [], [], none, 0⟩ none).action_category ≠ "ORDER_TODAY" :=
  zero_burn_rate_runway_999_never_order_today ⟨[], [], [], none, 0⟩ none rfl

/-- C5 counterexample: the claim computes the requirement as the exact
product burn_rate × (lead + safety) and promises the minimum-order floor
whenever 0 < required − available < minimum_order_quantity.  With the
default configuration, burn rate 5/2, stock 0 and 42 units in transit,
the exact requirement is 42.5, so the claimed shortfall is 0.5 ∈ (0, 1)
and the claim demands the minimum order quantity (1 ≠ 0); the code
truncates the requirement to int(42.5) = 42 first and returns 0. -/
theorem recommended_quantity_fractional_shortfall_returns_zero :
    calculate_recommended_quantity defaultAttributes (5/2) 0 42 = 0 ∧
      (0 : ℚ) < (5/2 : ℚ) *
        (((defaultAttributes.lead_time_days + defaultAttributes.safety_stock_days : ℤ)) : ℚ) -
        (((0 : ℤ) + 42 : ℤ) : ℚ) ∧
      (5/2 : ℚ) *
        (((defaultAttributes.lead_time_days + defaultAttributes.safety_stock_days : ℤ)) : ℚ) -
        (((0 : ℤ) + 42 : ℤ) : ℚ) <
        ((defaultAttributes.minimum_order_quantity : ℤ) : ℚ) ∧
      (0 : ℤ) ≠ defaultAttributes.minimum_order_quantity := by
  refine ⟨?_, ?_, ?_, ?_⟩ <;>
    norm_num [calculate_recommended_quantity, defaultAttributes, pyInt]

/-- C5 (amended): for every non-negative burn rate, stock and in-transit
quantity, with required = int(burn_rate × (lead_time_days +
safety_stock_days)) — truncated to an integer as in the code — and
available = stock + in_transit, the recommended quantity equals
max(0, required − available), except that whenever
0 < required − available < minimum_order_quantity the output equals
minimum_order_quantity exactly. -/
theorem recommended_quantity_formula (attrs : ProductAttributes)
    (daily_burn_rate : ℚ) (current_stock in_transit_qty : ℤ)
    (hb : 0 ≤ daily_burn_rate) (hs : 0 ≤ current_stock)
    (hi : 0 ≤ in_transit_qty) :
    calculate_recommended_quantity attrs daily_burn_rate current_stock
        in_transit_qty =
      (let required := pyInt (daily_burn_rate *
        ((attrs.lead_time_days + attrs.safety_stock_days : ℤ) : ℚ))
       let shortfall := required - (current_stock + in_transit_qty)
       if 0 < shortfall ∧ shortfall < attrs.minimum_order_quantity
       then attrs.minimum_order_quantity
       else max 0 shortfall) := by
  unfold calculate_recommended_quantity
  dsimp only
  rcases eq_or_lt_of_le hb with hb0 | hbpos
  · rw [if_pos (le_of_eq hb0.symm)]
    rw [← hb0]
    have hz : pyInt ((0 : ℚ) *
        ((attrs.lead_time_days + attrs.safety_stock_days : ℤ) : ℚ)) = 0 := by
      norm_num [pyInt]
    rw [hz]
    rw [if_neg (by omega)]
    rw [max_eq_left (by omega)]
  · rw [if_neg (not_le.mpr hbpos)]
    by_cases hc : 0 < pyInt (daily_burn_rate *
          ((attrs.lead_time_days + attrs.safety_stock_days : ℤ) : ℚ)) -
          (current_stock + in_transit_qty) ∧
        pyInt (daily_burn_rate *
          ((attrs.lead_time_days + attrs.safety_stock_days : ℤ) : ℚ)) -
          (current_stock + in_transit_qty) < attrs.minimum_order_quantity
    · rw [if_pos hc, if_pos hc]
      exact max_eq_right (by omega)
    · rw [if_neg hc, if_neg hc]

/-- C5 witness: the worked scenario of the spec (burn rate 5/2, stock 5,
nothing in transit, default configuration) instantiates the amended
formula; both sides evaluate to 37. -/
theorem recommended_quantity_formula_witness :
    calculate_recommended_quantity defaultAttributes (5/2) 5 0 =
      (let required := pyInt ((5/2 : ℚ) *
        ((defaultAttributes.lead_time_days + defaultAttributes.safety_stock_days : ℤ) : ℚ))
       let shortfall := required - ((5 : ℤ) + 0)
       if 0 < shortfall ∧ shortfall < defaultAttributes.minimum_order_quantity
       then defaultAttributes.minimum_order_quantity
       else max 0 shortfall) :=
  recommended_quantity_formula defaultAttributes (5/2) 5 0 (by norm_num)
    (by norm_num) (by norm_num)

/-- Clamping to [0, 100] after multiplying by a shared factor preserves
the ordering of two non-negative base scores. -/
theorem clamp_mul_le_clamp_mul {b1 b2 k : ℚ} (hb1 : 0 ≤ b1) (hb2 : 0 ≤ b2)
    (h : b2 ≤ b1) : min 100 (max 0 (b2 * k)) ≤ min 100 (max 0 (b1 * k)) := by
  rcases le_or_lt 0 k with hk | hk
  · exact min_le_min le_rfl (max_le_max le_rfl (mul_le_mul_of_nonneg_right h hk))
  · have p1 : b1 * k ≤ 0 := mul_nonpos_iff.mpr (Or.inl ⟨hb1, hk.le⟩)
    have p2 : b2 * k ≤ 0 := mul_nonpos_iff.mpr (Or.inl ⟨hb2, hk.le⟩)
    rw [max_eq_left p1, max_eq_left p2]

/-- C6: holding the burn rate, the forecast confidence and the configured
reorder threshold fixed, `calculate_priority_score` is monotonically
non-increasing in the runway: for runway values r1 < r2 with r2 above the
reorder threshold and r1 ≥ 0, the score at r1 is at least the score at
r2. -/
theorem priority_score_antitone_in_runway (attrs : ProductAttributes)
    (daily_burn_rate : ℚ) (forecast_confidence : Option ℚ) (r1 r2 : ℤ)
    (h0 : 0 ≤ r1) (h12 : r1 < r2)
    (ht : attrs.reorder_threshold_days < r2) :
    calculate_priority_score attrs r2 daily_burn_rate forecast_confidence ≤
      calculate_priority_score attrs r1 daily_burn_rate forecast_confidence := by
  unfold calculate_priority_score
  dsimp only
  simp only [mul_assoc]
  exact clamp_mul_le_clamp_mul
    (priority_base_nonneg attrs.reorder_threshold_days r1)
    (priority_base_nonneg attrs.reorder_threshold_days r2)
    (priority_base_antitone h0 h12 ht)

/-- C6 witness: with the default threshold 7, zero burn rate and no
forecast confidence, the score at runway 10 is at most the score at
runway 0. -/
theorem priority_score_antitone_in_runway_witness :
    calculate_priority_score defaultAttributes 10 0 none ≤
      calculate_priority_score defaultAttributes 0 0 none :=
  priority_score_antitone_in_runway defaultAttributes 0 none 0 10
    (by norm_num) (by norm_num) (by norm_num [defaultAttributes])

/-- C7: for every sales history (the empty one included) and every
requested horizon, the moving-average forecaster — a total function, so
it cannot raise — returns exactly horizon daily rows, each with a
non-negative predicted quantity, and on empty history every predicted
quantity is 0. -/
theorem moving_average_forecast_shape (sales_data : List ℤ) (today : ℤ)
    (forecast_days : ℕ) :
    (generate_forecast_for_product sales_data today forecast_days).length =
        forecast_days ∧
      (∀ r ∈ generate_forecast_for_product sales_data today forecast_days,
        0 ≤ r.predicted_quantity) ∧
      (sales_data = [] →
        ∀ r ∈ generate_forecast_for_product sales_data today forecast_days,
          r.predicted_quantity = 0) := by
  refine ⟨?_, ?_, ?_⟩
  · unfold generate_forecast_for_product
    simp only [List.length_map, List.length_range]
  · intro r hr
    simp only [generate_forecast_for_product, List.mem_map,
      List.mem_range] at hr
    obtain ⟨i, _, rfl⟩ := hr
    exact le_max_left 0 _
  · intro hempty r hr
    subst hempty
    simp only [generate_forecast_for_product, List.length_nil,
      List.mem_map, List.mem_range] at hr
    obtain ⟨i, _, rfl⟩ := hr
    simp [pyRound]

/-- C7 witness: on the empty history with horizon 2 the forecaster
returns 2 rows, all predicting 0. -/
theorem moving_average_forecast_shape_witness :
    (generate_forecast_for_product [] 0 2).length = 2 ∧
      ∀ r ∈ generate_forecast_for_product [] 0 2, r.predicted_quantity = 0 :=
  ⟨(moving_average_forecast_shape [] 0 2).1,
    (moving_average_forecast_shape [] 0 2).2.2 rfl⟩

/-- C8: training fails with the insufficient-data condition exactly when
the engineered feature matrix has fewer than 10 retained rows or no
feature columns; every raw history of 8 rows fails that way (at most 8
rows survive the retention filter); and on such a failure no model is
produced — the result is never a success value. -/
theorem train_insufficient_data_condition :
    (∀ qs : List ℤ, is_insufficient_data_error (train qs) = true ↔
        (retained_row_count qs < 10 ∨ num_feature_columns = 0)) ∧
      (∀ qs : List ℤ, qs.length = 8 →
        is_insufficient_data_error (train qs) = true) ∧
      (∀ qs : List ℤ, is_insufficient_data_error (train qs) = true →
        ∀ n : ℕ, train qs ≠ Except.ok n) := by
  have hmain : ∀ qs : List ℤ, is_insufficient_data_error (train qs) = true ↔
      (retained_row_count qs < 10 ∨ num_feature_columns = 0) := by
    intro qs
    unfold train
    dsimp only
    split_ifs <;>
      simp_all [is_insufficient_data_error, num_feature_columns]
  have hbound : ∀ qs : List ℤ, retained_row_count qs ≤ qs.length := by
    intro qs
    unfold retained_row_count engineer_features_retained_rows
    calc (List.filter (fun i => row_retained qs i)
          (List.range qs.length)).length
        ≤ (List.range qs.length).length := List.length_filter_le _ _
      _ = qs.length := List.length_range _
  refine ⟨hmain, ?_, ?_⟩
  · intro qs h8
    apply (hmain qs).mpr
    left
    have := hbound qs
    omega
  · intro qs h n hok
    rw [hok] at h
    simp [is_insufficient_data_error] at h

/-- C8 witness: an 8-day history fails with the insufficient-data
condition. -/
theorem train_insufficient_data_condition_witness :
    is_insufficient_data_error (train [3, 1, 4, 1, 5, 9, 2, 6]) = true :=
  train_insufficient_data_condition.2.1 [3, 1, 4, 1, 5, 9, 2, 6] rfl

/-- C9: the analysis is a deterministic function of its inputs — two runs
of `analyze` over identical upstream data (snapshots, sales aggregates,
purchase orders, configuration, analysis date) and the same forecast
confidence produce identical recommendation fields. -/
theorem analyze_deterministic (inp1 inp2 : AnalyzerInput)
    (conf1 conf2 : Option ℚ) (h : inp1 = inp2) (hconf : conf1 = conf2) :
    analyze inp1 conf1 = analyze inp2 conf2 := by
  rw [h, hconf]

/-- C9 witness: re-running the analyzer on a concrete input reproduces
the recommendation exactly. -/
theorem analyze_deterministic_witness :
    analyze ⟨[⟨0, 5⟩], [⟨0, 10⟩], [⟨"SUBMITTED", 4, 1⟩], none, 0⟩ (some 80) =
      analyze ⟨[⟨0, 5⟩], [⟨0, 10⟩], [⟨"SUBMITTED", 4, 1⟩], none, 0⟩
        (some 80) :=
  analyze_deterministic _ _ _ _ rfl rfl

/-- C10: the stockout date of `analyze` is never null — for every input
it is `some (analysis_date + runway_days)`, and when the burn rate is 0
it is the sentinel `analysis_date + 999` rather than the null the
external interface admits. -/
theorem stockout_date_never_null (inp : AnalyzerInput) (conf : Option ℚ) :
    (analyze inp conf).stockout_date =
        some (inp.current_date + (analyze inp conf).runway_days) ∧
      (calculate_daily_burn_rate inp.aggregates inp.current_date 30 = 0 →
        (analyze inp conf).stockout_date = some (inp.current_date + 999)) := by
  constructor
  · simp [analyze, calculate_stockout_date]
  · intro h
    simp [analyze, calculate_stockout_date, h, calculate_runway_days]

/-- C10 witness: with no sales aggregates the burn rate is 0 and the
stockout date is the analysis date plus the 999-day sentinel. -/
theorem stockout_date_never_null_witness :
    (analyze ⟨[], [], [], none, 0⟩ none).stockout_date = some (0 + 999) :=
  (stockout_date_never_null ⟨[], [], [], none, 0⟩ none).2 rfl

end ForecastMP
